import Mathlib

/-!
Verification of the audio capture session of the SentimentAnalysis frontend.

The development shallowly embeds the `useAudioRecorder` React hook
(`src/unnamed/part_000`), the `useFileUpload` hook (`src/unnamed/part_001`),
the progress computation of `AudioVisualizer`
(`src/frontend/src/components/AudioComponents.jsx`) and the emotion lookup
tables (`src/frontend/src/utils/emotions.js`).

The hook's state (React `useState` slots plus the `useRef` cells) is a
record; every externally triggered callback (user action, interval tick,
recorder `ondataavailable`/`onstop`, player `ended`/`pause`) is a step
function on that record, and a session history is a fold of such events.
The elapsed time is kept in tenths of a second (the timer's exact
granularity: each 100 ms tick adds the literal `0.1`, the deadline is the
literal `3.0`, i.e. 30 tenths), so `prev + 0.1` becomes `prev + 1`,
`newTime >= 3.0` becomes `30 <= newTime` and the stored clamp value `3.0`
becomes `30`.  The clamp on the auto-stop branch is independent of
floating-point rounding, so the claims under study are insensitive to
this idealisation.

A central point of the embedding is closure capture.  In the source,
`startRecording` is memoised by `useCallback` with dependency list
`[isRecording]`, so the interval callback it installs closes over the
`stopRecording` value of a render in which `isRecording` was `false`
(the guard `if (isRecording) return` passed).  That `stopRecording`
closure is itself memoised with `[isRecording]` and has captured
`isRecording = false`; its first guard `if (!isRecording || ...) return`
therefore always fires when the timer callback invokes it.  The embedding
makes the captured flag an explicit argument of `stopRecording`:
UI-driven calls pass the current flag (the button handlers are re-rendered
closures), while the timer tick passes `false`.
-/

namespace AudioRecorder

/-- State of the `MediaRecorder` primitive together with the media stream it
wraps: `recState` is `true` while the recorder is in its `'recording'`
state, `pendingOnstop` records that `stop()` was called and the `onstop`
callback has been queued but has not fired yet, and `tracksLive` holds one
liveness flag per media track of the acquired stream. -/
structure MediaRec where
  recState : Bool
  pendingOnstop : Bool
  tracksLive : List Bool
  deriving DecidableEq

/-- The `<audio>` element attached through `audioPlayerRef`. -/
structure Player where
  paused : Bool
  currentTime : ℕ
  deriving DecidableEq

/-- An assembled sample: `new Blob(chunksRef.current, { type: 'audio/webm' })`.
Chunks are identified by their byte sizes. -/
structure Blob where
  parts : List ℕ
  mime : String
  deriving DecidableEq

/-- The complete state of one `useAudioRecorder` session: the six `useState`
slots, the `mediaRecorderRef`, `timerRef` (as an active flag), `chunksRef`
and `audioPlayerRef` cells.  Object URLs are identified with the blob they
denote. -/
structure RecorderState where
  isRecording : Bool
  recordingTime : ℕ
  audioBlob : Option Blob
  audioUrl : Option Blob
  isPlaying : Bool
  error : Option String
  mediaRecorder : Option MediaRec
  timerActive : Bool
  chunks : List ℕ
  player : Option Player
  deriving DecidableEq

/-- Error message set by `initializeRecorder` when `getUserMedia` fails. -/
def micError : String := "Microphone access denied or not available"

/-- Fixed auto-stop deadline: the literal `3.0` of the timer callback,
in tenths of a second. -/
def deadline : ℕ := 30

/-- Source `initializeRecorder` (part_000 lines 18-58): on success installs a
fresh recorder (state `'inactive'`, one live audio track) in
`mediaRecorderRef` and clears `error`, returning `true`; on `getUserMedia`
failure only sets `error` and returns `false`. -/
def initRecorder (acquireOk : Bool) (s : RecorderState) : Bool × RecorderState :=
  if acquireOk then
    (true, { s with
      mediaRecorder := some { recState := false, pendingOnstop := false, tracksLive := [true] },
      error := none })
  else
    (false, { s with error := some micError })

/-- Source `stopRecording` (part_000 lines 91-102).  `capturedIsRecording` is
the value of `isRecording` captured by the closure being invoked: the
current value for UI-driven calls, `false` for the stale closure held by
the interval callback (see the file comment). -/
def stopRecording (capturedIsRecording : Bool) (s : RecorderState) : RecorderState :=
  if !capturedIsRecording || s.mediaRecorder.isNone then s
  else
    let s1 := { s with isRecording := false, timerActive := false }
    match s1.mediaRecorder with
    | some mr =>
      if mr.recState then
        { s1 with mediaRecorder := some { mr with recState := false, pendingOnstop := true } }
      else s1
    | none => s1

/-- Source `startRecording` (part_000 lines 61-88): no-op while already
recording; on acquisition failure stops after `initializeRecorder`; else
clears time/sample, starts the recorder (`start(100)`) and the interval
timer. -/
def startRecording (acquireOk : Bool) (s : RecorderState) : RecorderState :=
  if s.isRecording then s
  else
    let r := initRecorder acquireOk s
    if !r.1 then r.2
    else
      let s2 := { r.2 with
        recordingTime := 0, audioBlob := none, audioUrl := none, isRecording := true }
      let s3 := { s2 with
        mediaRecorder := s2.mediaRecorder.map fun mr : MediaRec => { mr with recState := true } }
      { s3 with timerActive := true }

/-- Source timer callback (part_000 lines 75-85): adds `0.1` (one tenth);
when the new time reaches `3.0` (30 tenths) it invokes the stale
`stopRecording` closure (captured `isRecording = false`, hence a no-op)
and stores exactly the deadline; otherwise it stores the incremented
time.  A cleared interval no longer fires, so
the whole callback is guarded by `timerActive`. -/
def tickStep (s : RecorderState) : RecorderState :=
  if s.timerActive then
    let newTime := s.recordingTime + 1
    if deadline ≤ newTime then
      let s1 := stopRecording false s
      { s1 with recordingTime := deadline }
    else
      { s with recordingTime := newTime }
  else s

/-- Source `mediaRecorder.ondataavailable` (part_000 lines 33-37): pushes the
chunk while its size is positive.  The recorder only emits data while in
its `'recording'` state. -/
def dataAvailable (size : ℕ) (s : RecorderState) : RecorderState :=
  match s.mediaRecorder with
  | some mr => if mr.recState ∧ 0 < size then { s with chunks := s.chunks ++ [size] } else s
  | none => s

/-- Source `mediaRecorder.onstop` (part_000 lines 39-47): assembles the
buffered chunks into one blob, publishes it as `audioBlob`/`audioUrl`,
clears the chunk buffer, and stops every track of the captured stream. -/
def finalizeStep (s : RecorderState) : RecorderState :=
  match s.mediaRecorder with
  | none => s
  | some mr =>
    if mr.pendingOnstop then
      let blob : Blob := { parts := s.chunks, mime := "audio/webm" }
      { s with
        audioBlob := some blob, audioUrl := some blob, chunks := [],
        mediaRecorder := some { mr with
          pendingOnstop := false, tracksLive := mr.tracksLive.map fun _ => false } }
    else s

/-- Source `playAudio` (part_000 lines 105-115): no-op without a sample URL
or an attached player; otherwise toggles play/pause and the flag. -/
def playAudio (s : RecorderState) : RecorderState :=
  if s.audioUrl.isNone || s.player.isNone then s
  else if s.isPlaying then
    { s with player := s.player.map (fun p => { p with paused := true }), isPlaying := false }
  else
    { s with player := s.player.map (fun p => { p with paused := false }), isPlaying := true }

/-- Source `handleEnded` (part_000 line 140) plus the element's own behaviour
on `ended`: the element is paused and the flag resynchronised to `false`. -/
def endedStep (s : RecorderState) : RecorderState :=
  match s.player with
  | none => s
  | some p => { s with isPlaying := false, player := some { p with paused := true } }

/-- Source `handlePause` (part_000 line 141): a `pause` event resynchronises
the flag to `false`. -/
def pauseStep (s : RecorderState) : RecorderState :=
  match s.player with
  | none => s
  | some p => { s with isPlaying := false, player := some { p with paused := true } }

/-- Source `resetRecording` (part_000 lines 118-133): stops first when
recording (through the current, non-stale `stopRecording` closure), zeroes
time, drops the sample and error, clears the playing flag, and pauses and
rewinds any attached player. -/
def resetRecording (s : RecorderState) : RecorderState :=
  let s1 := if s.isRecording then stopRecording s.isRecording s else s
  let s2 := { s1 with
    recordingTime := 0, audioBlob := none, audioUrl := none,
    isPlaying := false, error := none }
  match s2.player with
  | some _ => { s2 with player := some { paused := true, currentTime := 0 } }
  | none => s2

/-- React assigning the `<audio>` element to `audioPlayerRef` on mount. -/
def attachPlayer (s : RecorderState) : RecorderState :=
  { s with player := some { paused := true, currentTime := 0 } }

/-- Externally triggered events of one session. -/
inductive Event where
  | start (acquireOk : Bool)
  | stop
  | reset
  | tick
  | data (size : ℕ)
  | finalize
  | play
  | ended
  | pause
  | attach
  deriving DecidableEq

/-- Dispatch one event.  UI-driven `stop` goes through the current render's
closure, whose captured `isRecording` equals the current state's flag. -/
def step (s : RecorderState) (e : Event) : RecorderState :=
  match e with
  | .start ok => startRecording ok s
  | .stop => stopRecording s.isRecording s
  | .reset => resetRecording s
  | .tick => tickStep s
  | .data n => dataAvailable n s
  | .finalize => finalizeStep s
  | .play => playAudio s
  | .ended => endedStep s
  | .pause => pauseStep s
  | .attach => attachPlayer s

/-- Hook state as first rendered. -/
def initState : RecorderState :=
  { isRecording := false, recordingTime := 0, audioBlob := none, audioUrl := none,
    isPlaying := false, error := none, mediaRecorder := none, timerActive := false,
    chunks := [], player := none }

/-- Run a list of events from a state. -/
def run (s : RecorderState) (es : List Event) : RecorderState :=
  es.foldl step s

end AudioRecorder

namespace FileUpload

/-- A JavaScript `File` as seen by `useFileUpload` (part_001): its `name`,
MIME `type` (field `ftype`, `type` being reserved), byte `size`, and
whether `addFiles` attached a preview object URL to it. -/
structure JFile where
  name : String
  ftype : String
  size : ℕ
  preview : Bool := false
  deriving DecidableEq

/-- JavaScript `String.prototype.startsWith s p`, computed on the character
lists of the strings (kernel-executable, unlike `String.startsWith`). -/
def strStarts (s p : String) : Bool :=
  s.data.take p.data.length == p.data

/-- Rendering of `(maxSize / (1024 * 1024)).toFixed(1)` for the size-error
message; one decimal digit, by truncation (exact for the configured
whole-megabyte limits). -/
def mbStr (maxSize : ℕ) : String :=
  toString (maxSize / (1024 * 1024)) ++ "." ++ toString (maxSize * 10 / (1024 * 1024) % 10)

/-- Source `validateFile` (part_001 lines 14-31): a type error when the
configured `accept` kind does not match the file's MIME type, then a size
error when the file exceeds `maxSize`; each message is headed by the
file's name. -/
def validateFile (accept : String) (maxSize : ℕ) (f : JFile) : List String :=
  let typeErrs : List String :=
    if accept == "audio/*" && !(strStarts f.ftype "audio/") then
      [f.name ++ ": Invalid file type. Please upload an audio file."]
    else if accept == "image/*" && !(strStarts f.ftype "image/") then
      [f.name ++ ": Invalid file type. Please upload an image file."]
    else []
  let sizeErrs : List String :=
    if maxSize < f.size then
      [f.name ++ ": File too large. Maximum size is " ++ mbStr maxSize ++ "MB."]
    else []
  typeErrs ++ sizeErrs

/-- Source `addFiles` (part_001 lines 34-63): partitions the incoming batch
into valid files (images get a preview URL) and collected error messages,
then replaces or extends the held file list when at least one file was
valid.  Returns the resulting file list and the reported errors. -/
def addFiles (accept : String) (maxSize : ℕ) (allowMultiple : Bool)
    (prev : List JFile) (newFiles : List JFile) : List JFile × List String :=
  let proc := newFiles.foldl
    (fun (acc : List JFile × List String) f =>
      let errs := validateFile accept maxSize f
      if 0 < errs.length then (acc.1, acc.2 ++ errs)
      else
        let f1 := if strStarts f.ftype "image/" then { f with preview := true } else f
        (acc.1 ++ [f1], acc.2))
    ([], [])
  let files1 := if 0 < proc.1.length then (if allowMultiple then prev ++ proc.1 else proc.1) else prev
  (files1, proc.2)

end FileUpload

namespace Visualizer

/-- Source `AudioVisualizer` (AudioComponents.jsx line 102):
`const progress = (recordingTime / maxTime) * 100`. -/
def progress (recordingTime maxTime : ℚ) : ℚ :=
  recordingTime / maxTime * 100

/-- Source rendered width (AudioComponents.jsx line 136):
`width: Math.min(progress, 100)%`. -/
def renderedWidth (recordingTime maxTime : ℚ) : ℚ :=
  min (progress recordingTime maxTime) 100

/-- Definition following the spec's words, for comparison with the source:
"Progress indicator is a pure function of `elapsed / deadline`, clamped to
[0, 1]". -/
def specClampedProgress (elapsed ddl : ℚ) : ℚ :=
  max 0 (min 1 (elapsed / ddl))

end Visualizer

namespace Emotions

end Emotions

namespace AudioRecorder

theorem stopRecording_time (b : Bool) (s : RecorderState) :
    (stopRecording b s).recordingTime = s.recordingTime := by
  obtain ⟨f1, t, ab, au, ip, er, mr, ta, ch, pl⟩ := s
  unfold stopRecording
  cases mr <;> cases b <;> simp <;> split <;> rfl

theorem stopRecording_player (b : Bool) (s : RecorderState) :
    (stopRecording b s).player = s.player := by
  obtain ⟨f1, t, ab, au, ip, er, mr, ta, ch, pl⟩ := s
  unfold stopRecording
  cases mr <;> cases b <;> simp <;> split <;> rfl

theorem startRecording_time (ok : Bool) (s : RecorderState) :
    (startRecording ok s).recordingTime = 0 ∨
    (startRecording ok s).recordingTime = s.recordingTime := by
  obtain ⟨f1, t, ab, au, ip, er, mr, ta, ch, pl⟩ := s
  unfold startRecording initRecorder
  cases f1 <;> cases ok <;> simp

theorem tickStep_time (s : RecorderState) :
    (tickStep s).recordingTime = s.recordingTime ∨
    ((tickStep s).recordingTime = s.recordingTime + 1 ∧ (tickStep s).recordingTime < deadline) ∨
    (tickStep s).recordingTime = deadline := by
  unfold tickStep
  by_cases hta : s.timerActive
  · by_cases hd : deadline ≤ s.recordingTime + 1
    · right; right; simp [hta, hd]
    · right; left
      constructor
      · simp [hta, hd]
      · simp only [hta, if_true, hd, if_false]
        omega
  · left; simp [hta]

theorem step_time_le (s : RecorderState) (e : Event)
    (h : s.recordingTime ≤ deadline) : (step s e).recordingTime ≤ deadline := by
  cases e with
  | start ok =>
    rcases startRecording_time ok s with h0 | h0 <;> simp only [step] <;> omega
  | stop => simp only [step]; rw [stopRecording_time]; exact h
  | reset =>
    obtain ⟨f1, t, ab, au, ip, er, mr, ta, ch, pl⟩ := s
    simp only [step]
    unfold resetRecording
    cases hpl : (if f1 = true then
        stopRecording f1 ⟨f1, t, ab, au, ip, er, mr, ta, ch, pl⟩
      else ⟨f1, t, ab, au, ip, er, mr, ta, ch, pl⟩).player <;> simp [hpl, deadline]
  | tick =>
    rcases tickStep_time s with h0 | ⟨h0, h1⟩ | h0 <;> simp only [step] <;> omega
  | data n =>
    obtain ⟨f1, t, ab, au, ip, er, mr, ta, ch, pl⟩ := s
    simp only [step]
    unfold dataAvailable
    cases mr with
    | none => exact h
    | some m => dsimp only; split <;> simpa using h
  | finalize =>
    obtain ⟨f1, t, ab, au, ip, er, mr, ta, ch, pl⟩ := s
    simp only [step]
    unfold finalizeStep
    cases mr with
    | none => exact h
    | some m => dsimp only; split <;> simpa using h
  | play =>
    obtain ⟨f1, t, ab, au, ip, er, mr, ta, ch, pl⟩ := s
    simp only [step]
    unfold playAudio
    split <;> [skip; split] <;> simpa
  | ended =>
    obtain ⟨f1, t, ab, au, ip, er, mr, ta, ch, pl⟩ := s
    simp only [step]
    unfold endedStep
    cases pl <;> simpa
  | pause =>
    obtain ⟨f1, t, ab, au, ip, er, mr, ta, ch, pl⟩ := s
    simp only [step]
    unfold pauseStep
    cases pl <;> simpa
  | attach => simpa [step, attachPlayer] using h

theorem run_time_le (es : List Event) (s : RecorderState)
    (h : s.recordingTime ≤ deadline) : (run s es).recordingTime ≤ deadline := by
  induction es generalizing s with
  | nil => exact h
  | cons e es ih => exact ih (step s e) (step_time_le s e h)

/-- C4: in every reachable session state the recorded elapsed time never
exceeds the 3.0-second deadline (30 tenths of a second), and each tick
either leaves the time unchanged (inactive timer), stores the incremented
time when that stays below the deadline, or stores exactly the deadline
value — never an overshoot. -/
theorem elapsed_never_exceeds_deadline :
    (∀ es : List Event, (run initState es).recordingTime ≤ deadline) ∧
    (∀ s : RecorderState,
      (tickStep s).recordingTime = s.recordingTime ∨
      ((tickStep s).recordingTime = s.recordingTime + 1 ∧
        (tickStep s).recordingTime < deadline) ∨
      (tickStep s).recordingTime = deadline) :=
  ⟨fun es => run_time_le es initState (by simp [initState, deadline]),
   tickStep_time⟩

/-- C1: the auto-stop at the 3.0-second deadline never actually stops the
session.  After `startRecording()` and 30 timer ticks (elapsed = 3.0 s)
the elapsed value is clamped to the deadline, but the session is still
`Recording`: the flag is still set, the interval timer is still active and
the `MediaRecorder` is still in its `'recording'` state, and the next tick
changes nothing; the transition to `Stopped` never happens.  The timer
callback's `stopRecording()` call is a stale closure whose captured
`isRecording` is `false`, so its guard returns immediately (contradicting
the source's own comment `Auto-stop at 3 seconds` and the spec). -/
theorem autoStop_never_stops :
    (run initState (Event.start true :: List.replicate 30 Event.tick)).recordingTime
        = deadline ∧
    (run initState (Event.start true :: List.replicate 30 Event.tick)).isRecording = true ∧
    (run initState (Event.start true :: List.replicate 30 Event.tick)).timerActive = true ∧
    (run initState (Event.start true :: List.replicate 30 Event.tick)).mediaRecorder
        = some { recState := true, pendingOnstop := false, tracksLive := [true] } ∧
    step (run initState (Event.start true :: List.replicate 30 Event.tick)) Event.tick
        = run initState (Event.start true :: List.replicate 30 Event.tick) := by
  refine ⟨?_, ?_, ?_, ?_, ?_⟩ <;> decide

/-- Session invariant: while the `isRecording` flag is set, a recorder is
installed in `mediaRecorderRef` (start is the only transition setting the
flag, and it installs the recorder first). -/
def recOk (s : RecorderState) : Prop :=
  s.isRecording = true → s.mediaRecorder.isSome = true

theorem stopRecording_preserves_recOk (b : Bool) (s : RecorderState)
    (h : recOk s) : recOk (stopRecording b s) := by
  obtain ⟨f1, t, ab, au, ip, er, mr, ta, ch, pl⟩ := s
  unfold stopRecording
  cases mr <;> cases b <;> simp_all [recOk] <;> split <;> simp

theorem stopRecording_isRecording_false (s : RecorderState)
    (h : s.mediaRecorder.isSome = true) :
    (stopRecording true s).isRecording = false := by
  obtain ⟨f1, t, ab, au, ip, er, mr, ta, ch, pl⟩ := s
  unfold stopRecording
  cases mr with
  | none => simp at h
  | some m => simp; split <;> rfl

theorem resetRecording_recOk (s : RecorderState) (h : recOk s) :
    recOk (resetRecording s) := by
  unfold resetRecording
  by_cases hf : s.isRecording = true
  · rw [if_pos hf, hf]
    have h1 := stopRecording_preserves_recOk true s h
    generalize hq : stopRecording true s = s1 at h1 ⊢
    obtain ⟨g1, u, bb, bu, jp, fr, nr, ua, dh, ql⟩ := s1
    cases ql <;> simp_all [recOk]
  · rw [if_neg hf]
    obtain ⟨g1, u, bb, bu, jp, fr, nr, ua, dh, ql⟩ := s
    cases ql <;> simp_all [recOk]

theorem step_recOk (s : RecorderState) (e : Event) (h : recOk s) :
    recOk (step s e) := by
  cases e with
  | reset => exact resetRecording_recOk s h
  | stop => exact stopRecording_preserves_recOk _ _ h
  | start ok =>
    obtain ⟨f1, t, ab, au, ip, er, mr, ta, ch, pl⟩ := s
    simp only [step]
    unfold startRecording initRecorder
    cases f1 <;> cases ok <;> simp_all [recOk]
  | tick =>
    obtain ⟨f1, t, ab, au, ip, er, mr, ta, ch, pl⟩ := s
    simp only [step]
    unfold tickStep
    simp only [recOk] at h ⊢
    split
    · split
      · unfold stopRecording
        cases mr <;> simp_all
      · simp_all
    · simp_all
  | data n =>
    obtain ⟨f1, t, ab, au, ip, er, mr, ta, ch, pl⟩ := s
    simp only [step]
    unfold dataAvailable
    cases mr with
    | none => exact h
    | some m => dsimp only; split <;> simp_all [recOk]
  | finalize =>
    obtain ⟨f1, t, ab, au, ip, er, mr, ta, ch, pl⟩ := s
    simp only [step]
    unfold finalizeStep
    cases mr with
    | none => exact h
    | some m => dsimp only; split <;> simp_all [recOk]
  | play =>
    obtain ⟨f1, t, ab, au, ip, er, mr, ta, ch, pl⟩ := s
    simp only [step]
    unfold playAudio
    split
    · exact h
    · split <;> simp_all [recOk]
  | ended =>
    obtain ⟨f1, t, ab, au, ip, er, mr, ta, ch, pl⟩ := s
    simp only [step]
    unfold endedStep
    cases pl <;> simp_all [recOk]
  | pause =>
    obtain ⟨f1, t, ab, au, ip, er, mr, ta, ch, pl⟩ := s
    simp only [step]
    unfold pauseStep
    cases pl <;> simp_all [recOk]
  | attach =>
    obtain ⟨f1, t, ab, au, ip, er, mr, ta, ch, pl⟩ := s
    simp_all [step, attachPlayer, recOk]

theorem run_recOk (es : List Event) (s : RecorderState) (h : recOk s) :
    recOk (run s es) := by
  induction es generalizing s with
  | nil => exact h
  | cons e es ih => exact ih (step s e) (step_recOk s e h)

theorem resetRecording_spec (s : RecorderState)
    (hinv : s.isRecording = true → s.mediaRecorder.isSome = true) :
    (resetRecording s).isRecording = false ∧
    (resetRecording s).recordingTime = 0 ∧
    (resetRecording s).audioBlob = none ∧
    (resetRecording s).audioUrl = none ∧
    (resetRecording s).isPlaying = false ∧
    (resetRecording s).error = none ∧
    (s.player.isSome = true →
      (resetRecording s).player = some { paused := true, currentTime := 0 }) := by
  unfold resetRecording
  by_cases hf : s.isRecording = true
  · rw [if_pos hf, hf]
    have hrec : (stopRecording true s).isRecording = false :=
      stopRecording_isRecording_false s (hinv hf)
    have hpl : (stopRecording true s).player = s.player := stopRecording_player true s
    generalize hq : stopRecording true s = s1 at hrec hpl ⊢
    obtain ⟨g1, u, bb, bu, jp, fr, nr, ua, dh, ql⟩ := s1
    cases ql <;> cases hsp : s.player <;> simp_all
  · rw [if_neg hf]
    obtain ⟨g1, u, bb, bu, jp, fr, nr, ua, dh, ql⟩ := s
    cases ql <;> simp_all

end AudioRecorder

namespace AudioRecorder

/-- C3: from every reachable session state — Idle, Recording, Stopped or
Error — `resetRecording()` yields the Idle configuration: the recording
flag cleared, elapsed time 0, `audioBlob`/`audioUrl` null, `error` null,
`isPlaying` false, and any attached audio player paused and rewound to
position 0 (when recording, the reset stops through the current, non-stale
`stopRecording` closure first). -/
theorem reset_always_yields_idle (es : List Event) :
    (step (run initState es) Event.reset).isRecording = false ∧
    (step (run initState es) Event.reset).recordingTime = 0 ∧
    (step (run initState es) Event.reset).audioBlob = none ∧
    (step (run initState es) Event.reset).audioUrl = none ∧
    (step (run initState es) Event.reset).isPlaying = false ∧
    (step (run initState es) Event.reset).error = none ∧
    ((run initState es).player.isSome = true →
      (step (run initState es) Event.reset).player
        = some { paused := true, currentTime := 0 }) := by
  have hinv : recOk (run initState es) :=
    run_recOk es initState (by intro h; simp [initState] at h)
  exact resetRecording_spec (run initState es) hinv

/-- C3 witness: after attaching a player and going through a full recording,
reset lands in the Idle configuration with the player rewound. -/
theorem reset_always_yields_idle_witness :
    (run initState [Event.attach, Event.start true, Event.tick]).player.isSome = true ∧
    (step (run initState [Event.attach, Event.start true, Event.tick]) Event.reset).isRecording
      = false ∧
    (step (run initState [Event.attach, Event.start true, Event.tick]) Event.reset).player
      = some { paused := true, currentTime := 0 } :=
  ⟨by decide,
   (reset_always_yields_idle [Event.attach, Event.start true, Event.tick]).1,
   (reset_always_yields_idle [Event.attach, Event.start true, Event.tick]).2.2.2.2.2.2
     (by decide)⟩

/-- C2: a manual `stopRecording()` while Recording at elapsed `t` below the
deadline, followed by the recorder's `onstop` finalization, leaves the
session Stopped with elapsed still `t`, a non-null assembled sample (the
buffered chunks under MIME type `audio/webm`, exposed both as the blob and
its object URL), the chunk buffer cleared, and every media track of the
device stream stopped. -/
theorem stop_at_t_finalizes (s : RecorderState) (mr : MediaRec)
    (hrec : s.isRecording = true) (hmr : s.mediaRecorder = some mr)
    (hrs : mr.recState = true) (ht : s.recordingTime < deadline) :
    (step (step s Event.stop) Event.finalize).isRecording = false ∧
    (step (step s Event.stop) Event.finalize).recordingTime = s.recordingTime ∧
    (step (step s Event.stop) Event.finalize).audioBlob
      = some { parts := s.chunks, mime := "audio/webm" } ∧
    (step (step s Event.stop) Event.finalize).audioUrl
      = some { parts := s.chunks, mime := "audio/webm" } ∧
    (step (step s Event.stop) Event.finalize).chunks = [] ∧
    (step (step s Event.stop) Event.finalize).mediaRecorder
      = some { recState := false, pendingOnstop := false,
               tracksLive := mr.tracksLive.map fun _ => false } ∧
    (∀ m : MediaRec, (step (step s Event.stop) Event.finalize).mediaRecorder = some m →
      ∀ b ∈ m.tracksLive, b = false) := by
  have hstop : step s Event.stop
      = { s with
          isRecording := false, timerActive := false,
          mediaRecorder :=
            some { recState := false, pendingOnstop := true, tracksLive := mr.tracksLive } } := by
    simp only [step]
    unfold stopRecording
    rw [hrec, hmr]
    simp [hrs]
  rw [hstop]
  simp only [step]
  unfold finalizeStep
  simp

/-- C2 witness: a concrete session (start, one 2-byte chunk, one tick) that
is stopped at elapsed 0.1 s and finalized. -/
theorem stop_at_t_finalizes_witness :
    (run initState [Event.start true, Event.data 2, Event.tick]).isRecording = true ∧
    (run initState [Event.start true, Event.data 2, Event.tick]).recordingTime < deadline ∧
    (step (step (run initState [Event.start true, Event.data 2, Event.tick]) Event.stop)
        Event.finalize).audioBlob
      = some { parts := (run initState [Event.start true, Event.data 2, Event.tick]).chunks,
               mime := "audio/webm" } ∧
    (step (step (run initState [Event.start true, Event.data 2, Event.tick]) Event.stop)
        Event.finalize).chunks = [] :=
  ⟨by decide, by decide,
   (stop_at_t_finalizes (run initState [Event.start true, Event.data 2, Event.tick])
     { recState := true, pendingOnstop := false, tracksLive := [true] }
     (by decide) (by decide) (by decide) (by decide)).2.2.1,
   (stop_at_t_finalizes (run initState [Event.start true, Event.data 2, Event.tick])
     { recState := true, pendingOnstop := false, tracksLive := [true] }
     (by decide) (by decide) (by decide) (by decide)).2.2.2.2.1⟩

/-- C5: calling `startRecording()` while already Recording is a complete
no-op: the whole session state — elapsed time, timer, chunk buffer,
sample, recorder — is unchanged, and no second acquisition happens. -/
theorem start_while_recording_noop (s : RecorderState) (ok : Bool)
    (h : s.isRecording = true) : step s (Event.start ok) = s := by
  simp [step, startRecording, h]

/-- C5 witness: a second `start()` right after a successful start changes
nothing. -/
theorem start_while_recording_noop_witness :
    (run initState [Event.start true]).isRecording = true ∧
    step (run initState [Event.start true]) (Event.start true)
      = run initState [Event.start true] :=
  ⟨by decide, start_while_recording_noop (run initState [Event.start true]) true (by decide)⟩

/-- C8: when device acquisition fails, `startRecording()` returns right
after `initializeRecorder`: the only change is the recorded non-null error
reason (the session is in its Error configuration); no recording starts,
no timer runs, and elapsed time and sample are untouched. -/
theorem acquire_failure_leaves_error (s : RecorderState) (h : s.isRecording = false) :
    step s (Event.start false) = { s with error := some micError } ∧
    (step s (Event.start false)).error = some micError ∧
    (step s (Event.start false)).isRecording = false ∧
    (step s (Event.start false)).timerActive = s.timerActive ∧
    (step s (Event.start false)).recordingTime = s.recordingTime ∧
    (step s (Event.start false)).audioBlob = s.audioBlob ∧
    (step s (Event.start false)).audioUrl = s.audioUrl := by
  have heq : step s (Event.start false) = { s with error := some micError } := by
    simp [step, startRecording, initRecorder, h]
  refine ⟨heq, ?_, ?_, ?_, ?_, ?_, ?_⟩ <;> rw [heq] <;> simpa using h

/-- C8 witness: acquisition failure from the fresh session. -/
theorem acquire_failure_leaves_error_witness :
    initState.isRecording = false ∧
    step initState (Event.start false) = { initState with error := some micError } :=
  ⟨rfl, (acquire_failure_leaves_error initState rfl).1⟩

/-- C6: with a finalized sample present and a player attached, `playAudio()`
toggles the playing flag, and a subsequent `ended` event from the player
element resynchronises `isPlaying` to `false` without a second toggle
call; with no sample URL, `playAudio()` is a no-op leaving the whole state
unchanged. -/
theorem toggle_then_ended (s : RecorderState) :
    (∀ (b : Blob) (p : Player), s.audioUrl = some b → s.player = some p →
      (step s Event.play).isPlaying = !s.isPlaying ∧
      (step (step s Event.play) Event.ended).isPlaying = false) ∧
    (s.audioUrl = none → step s Event.play = s) := by
  constructor
  · intro b p hb hp
    by_cases hip : s.isPlaying = true <;>
      simp [step, playAudio, endedStep, hb, hp, hip]
  · intro hu
    simp [step, playAudio, hu]

/-- C6 witness: toggle plus `ended` on a finished one-chunk session, and the
no-op toggle on the fresh session without a sample. -/
theorem toggle_then_ended_witness :
    (run initState [Event.attach, Event.start true, Event.data 1, Event.stop,
        Event.finalize]).audioUrl = some { parts := [1], mime := "audio/webm" } ∧
    (step (step (run initState [Event.attach, Event.start true, Event.data 1, Event.stop,
        Event.finalize]) Event.play) Event.ended).isPlaying = false ∧
    step initState Event.play = initState :=
  ⟨by decide,
   ((toggle_then_ended (run initState [Event.attach, Event.start true, Event.data 1,
       Event.stop, Event.finalize])).1 { parts := [1], mime := "audio/webm" }
     { paused := true, currentTime := 0 } (by decide) (by decide)).2,
   (toggle_then_ended initState).2 rfl⟩

end AudioRecorder

namespace FileUpload

theorem strStarts_audio_not_image (t : String) (h : strStarts t "audio/" = true) :
    strStarts t "image/" = false := by
  unfold strStarts at h ⊢
  simp only [beq_iff_eq] at h
  simp only [beq_eq_false_iff_ne]
  intro h2
  have h3 : ("audio/".data).length = ("image/".data).length := by decide
  rw [h3] at h
  exact absurd (h.symm.trans h2) (by decide)

/-- C7 counterexample: the claim quantifies over every batch in which file A
exceeds `maxSize` and file B is valid, asserting exactly one validation
error mentions A.  For A of a non-audio MIME type that also exceeds the
limit, `validateFile` collects two errors for A (type and size), both
headed by A's name, so the error count for the batch is 2, not 1 (the
accepted set is still exactly B). -/
theorem addFiles_two_errors_counterexample :
    (addFiles "audio/*" 10485760 false []
      [{ name := "a.txt", ftype := "text/plain", size := 10485761 },
       { name := "b.webm", ftype := "audio/webm", size := 1000 }]).1
      = [{ name := "b.webm", ftype := "audio/webm", size := 1000 }] ∧
    (addFiles "audio/*" 10485760 false []
      [{ name := "a.txt", ftype := "text/plain", size := 10485761 },
       { name := "b.webm", ftype := "audio/webm", size := 1000 }]).2
      = ["a.txt" ++ ": Invalid file type. Please upload an audio file.",
         "a.txt" ++ ": File too large. Maximum size is 10.0MB."] ∧
    (addFiles "audio/*" 10485760 false []
      [{ name := "a.txt", ftype := "text/plain", size := 10485761 },
       { name := "b.webm", ftype := "audio/webm", size := 1000 }]).2.length ≠ 1 := by
  refine ⟨?_, ?_, ?_⟩ <;> decide

/-- C7 (amended): for a batch [A, B] in which A is of the accepted audio
type but exceeds `maxSize` while B passes both checks, `addFiles` accepts
exactly B (A is rejected) and reports exactly one validation error, which
is headed by A's name. -/
theorem addFiles_oversize_single_error (maxSize : ℕ) (A B : JFile)
    (hA : strStarts A.ftype "audio/" = true) (hAsize : maxSize < A.size)
    (hB : strStarts B.ftype "audio/" = true) (hBsize : B.size ≤ maxSize) :
    (addFiles "audio/*" maxSize false [] [A, B]).1 = [B] ∧
    B ∈ (addFiles "audio/*" maxSize false [] [A, B]).1 ∧
    A ∉ (addFiles "audio/*" maxSize false [] [A, B]).1 ∧
    (addFiles "audio/*" maxSize false [] [A, B]).2
      = [A.name ++ ": File too large. Maximum size is " ++ mbStr maxSize ++ "MB."] ∧
    (∃ rest, (addFiles "audio/*" maxSize false [] [A, B]).2 = [A.name ++ rest]) := by
  have hBimg : strStarts B.ftype "image/" = false := strStarts_audio_not_image B.ftype hB
  have hBsize' : ¬ maxSize < B.size := not_lt.mpr hBsize
  have heval : addFiles "audio/*" maxSize false [] [A, B]
      = ([B], [A.name ++ ": File too large. Maximum size is " ++ mbStr maxSize ++ "MB."]) := by
    unfold addFiles validateFile
    simp [hA, hB, hAsize, hBimg, hBsize']
  refine ⟨by simp [heval], by simp [heval], ?_, by simp [heval],
    ⟨": File too large. Maximum size is " ++ mbStr maxSize ++ "MB.",
     by simp [heval, String.append_assoc]⟩⟩
  simp only [heval]
  intro hmem
  simp only [List.mem_singleton] at hmem
  have : A.size = B.size := by rw [hmem]
  omega

/-- C7 witness for the amended statement: a 10 MB + 1 byte audio file next
to a small valid one, with the default 10 MB limit. -/
theorem addFiles_oversize_single_error_witness :
    (addFiles "audio/*" 10485760 false []
      [{ name := "a.webm", ftype := "audio/webm", size := 10485761 },
       { name := "b.webm", ftype := "audio/webm", size := 1000 }]).1
      = [{ name := "b.webm", ftype := "audio/webm", size := 1000 }] ∧
    (addFiles "audio/*" 10485760 false []
      [{ name := "a.webm", ftype := "audio/webm", size := 10485761 },
       { name := "b.webm", ftype := "audio/webm", size := 1000 }]).2
      = [({ name := "a.webm", ftype := "audio/webm", size := 10485761 } : JFile).name
          ++ ": File too large. Maximum size is " ++ mbStr 10485760 ++ "MB."] :=
  ⟨(addFiles_oversize_single_error 10485760
      { name := "a.webm", ftype := "audio/webm", size := 10485761 }
      { name := "b.webm", ftype := "audio/webm", size := 1000 }
      (by decide) (by decide) (by decide) (by decide)).1,
   (addFiles_oversize_single_error 10485760
      { name := "a.webm", ftype := "audio/webm", size := 10485761 }
      { name := "b.webm", ftype := "audio/webm", size := 1000 }
      (by decide) (by decide) (by decide) (by decide)).2.2.2.1⟩

end FileUpload

namespace Visualizer

/-- C9 counterexample: the rendered progress width is
`Math.min((elapsed / maxTime) * 100, 100)` — clamped only from above.  At
the input elapsed = -3 (with the deadline 3) the rendered value is -100,
while the claimed pure function `clamp [0,1] (elapsed / deadline)` scaled
to a percentage gives 0, so the displayed percentage does not lie in
[0, 100] for every input value. -/
theorem renderedWidth_not_clamped_below :
    renderedWidth (-3) 3 = -100 ∧
    100 * specClampedProgress (-3) 3 = 0 ∧
    renderedWidth (-3) 3 ≠ 100 * specClampedProgress (-3) 3 := by
  norm_num [renderedWidth, progress, specClampedProgress]

/-- C9 (amended): for every nonnegative elapsed value the rendered progress
width equals the spec's pure function `elapsed / deadline` clamped to
[0, 1] and scaled to a percentage, and in particular lies in [0, 100]
(elapsed is nonnegative in every reachable recorder state). -/
theorem renderedWidth_eq_clamped_of_nonneg (t : ℚ) (h : 0 ≤ t) :
    renderedWidth t 3 = 100 * specClampedProgress t 3 ∧
    0 ≤ renderedWidth t 3 ∧ renderedWidth t 3 ≤ 100 := by
  unfold renderedWidth progress specClampedProgress
  have h3 : (0:ℚ) ≤ t / 3 := by positivity
  rcases le_total (t / 3) 1 with h1 | h1
  · have hmin : min (t / 3 * 100) 100 = t / 3 * 100 := min_eq_left (by linarith)
    have hmin2 : min 1 (t / 3) = t / 3 := min_eq_right h1
    have hmax : max 0 (t / 3) = t / 3 := max_eq_right h3
    rw [hmin, hmin2, hmax]
    refine ⟨by ring, by linarith, by linarith⟩
  · have hmin : min (t / 3 * 100) 100 = 100 := min_eq_right (by linarith)
    have hmin2 : min 1 (t / 3) = 1 := min_eq_left h1
    have hmax : max (0:ℚ) 1 = 1 := max_eq_right (by norm_num)
    rw [hmin, hmin2, hmax]
    norm_num

/-- C9 witness for the amended statement, at elapsed = 1 s. -/
theorem renderedWidth_eq_clamped_of_nonneg_witness :
    renderedWidth 1 3 = 100 * specClampedProgress 1 3 ∧ renderedWidth 1 3 ≤ 100 :=
  ⟨(renderedWidth_eq_clamped_of_nonneg 1 (by decide)).1,
   (renderedWidth_eq_clamped_of_nonneg 1 (by decide)).2.2⟩

end Visualizer

namespace Emotions

end Emotions
